import Mathlib

/-!
Shallow embedding of the MySQL→MongoDB migration scripts
(`db구축/NoSQL_Migration/MySQL_to_MongoDB.py` and
`db구축/NoSQL_Migration/index.py`).

Relational rows are structures; tables are lists of rows; the destination
document store is a structure of collections (lists of documents).  SQL
queries issued by the scripts (filters, ORDER BY, inner joins, COUNT) are
modelled by list filters, a sort, and flat-maps.  Python `datetime.now()`
is a `now : Nat` parameter.  Python truthiness on optional strings and
decimals is modelled explicitly.  Fallible operations (pymongo's
`insert_many`, which rejects an empty batch) return `Except`.
-/

/-- A row of the MySQL `Customers` table
(`cust_id, passwd, cust_name, m_phone, terms, privacy, marketing`). -/
structure CustomerRow where
  cust_id : String
  passwd : String
  cust_name : String
  m_phone : String
  agree_terms : String
  agree_privacy : String
  agree_marketing : String
  deriving Repr, DecidableEq

/-- A row of the MySQL `Carts` table. -/
structure CartRow where
  cart_seq_no : Nat
  cust_id : String
  prod_cd : String
  prod_size : String
  ord_qty : Nat
  ord_yn : String
  deriving Repr, DecidableEq

/-- A row of the MySQL `Products` table; `price` is an exact DECIMAL,
`prod_intro` is a nullable MEDIUMTEXT. -/
structure ProductRow where
  prod_cd : String
  prod_name : String
  price : ℚ
  prod_type : String
  material : String
  prod_img : String
  prod_intro : Option String
  deriving Repr, DecidableEq

/-- A MySQL date or datetime value, as the driver returns it for the
`ord_date` column (`datetime.date` vs `datetime.datetime`). -/
inductive PyDate where
  | date (day : Nat)
  | datetime (day : Nat) (time : Nat)
  deriving Repr, DecidableEq

/-- A row of the MySQL `Orders` table
(`ord_no, ord_date, ord_amount, cust_id`); `ord_amount` is nullable. -/
structure OrderRow where
  ord_no : Nat
  ord_date : PyDate
  ord_amount : Option ℚ
  cust_id : String
  deriving Repr, DecidableEq

/-- A row of the MySQL `Ord_items` table. -/
structure OrdItemRow where
  ord_item_no : Nat
  ord_no : Nat
  cart_seq_no : Nat
  prod_cd : String
  prod_size : String
  ord_qty : Nat
  deriving Repr, DecidableEq

/-- A row of the MySQL `Prod_evals` table; `eval_comment` is nullable. -/
structure ProdEvalRow where
  eval_seq_no : Nat
  eval_score : Nat
  eval_comment : Option String
  cust_id : String
  prod_cd : String
  ord_item_no : Nat
  deriving Repr, DecidableEq

/-- The source MySQL database: the six tables the scripts read. -/
structure MySQLDb where
  customers : List CustomerRow
  carts : List CartRow
  products : List ProductRow
  orders : List OrderRow
  ord_items : List OrdItemRow
  prod_evals : List ProdEvalRow
  deriving Repr, DecidableEq

/-! ### Python semantics helpers -/

/-- Python `int()` applied to an exact `Decimal`: truncation toward zero. -/
def pyInt (q : ℚ) : ℤ := q.num.tdiv (q.den : ℤ)

/-- Python `x if x else ""` on a nullable string column: `None` and the
empty string are falsy, both yield `""`. -/
def pyStrOrEmpty : Option String → String
  | none => ""
  | some t => if t = "" then "" else t

/-- Python `int(x) if x else 0` on a nullable decimal: `None` and `0` are
falsy and give `0`; otherwise truncate. -/
def pyIntOrZero : Option ℚ → ℤ
  | none => 0
  | some q => if q = 0 then 0 else pyInt q

/-- `datetime.combine(d, datetime.min.time()) if isinstance(d, date) else d`:
a pure calendar date becomes midnight of that day. -/
def normalizeOrdDate : PyDate → PyDate
  | .date d => .datetime d 0
  | .datetime d t => .datetime d t

/-! ### Destination documents -/

/-- An element of a customer document's embedded `cart` array. -/
structure CartDoc where
  cart_seq_no : Nat
  prod_cd : String
  prod_size : String
  ord_qty : Nat
  ord_yn : String
  added_date : Nat
  deriving Repr, DecidableEq

/-- A document of the MongoDB `Customers` collection (`doc_id` embeds the
`_id` key, which holds the customer's email). -/
structure CustomerDoc where
  doc_id : String
  passwd : String
  cust_name : String
  m_phone : String
  agree_terms : String
  agree_privacy : String
  agree_marketing : String
  created_at : Nat
  cart : List CartDoc
  deriving Repr, DecidableEq

/-- The nested `detail` sub-object of a product document. -/
structure ProductDetail where
  prod_intro : String
  deriving Repr, DecidableEq

/-- A document of the MongoDB `Products` collection (`doc_id` embeds the
`_id` key, which holds the product code). -/
structure ProductDoc where
  doc_id : String
  prod_name : String
  price : ℤ
  prod_type : String
  material : String
  prod_img : String
  detail : ProductDetail
  deriving Repr, DecidableEq

/-- An element of an order document's embedded `items` array. -/
structure OrderItemDoc where
  ord_item_no : Nat
  prod_cd : String
  prod_name : String
  prod_size : String
  unit_price : ℤ
  ord_qty : Nat
  cart_seq_no : Nat
  review_written : Bool
  deriving Repr, DecidableEq

/-- A document of the MongoDB `Orders` collection. -/
structure OrderDoc where
  ord_no : Nat
  ord_date : PyDate
  ord_amount : ℤ
  cust_id : String
  items : List OrderItemDoc
  deriving Repr, DecidableEq

/-- A document of the MongoDB `Reviews` collection. -/
structure ReviewDoc where
  prod_cd : String
  cust_id : String
  cust_name : String
  ord_no : Nat
  ord_item_no : Nat
  eval_score : Nat
  eval_comment : String
  eval_date : Nat
  deriving Repr, DecidableEq

/-- The destination MongoDB database: the four collections the scripts
write.  A dropped collection and an empty one are both `[]`. -/
structure MongoState where
  Customers : List CustomerDoc
  Products : List ProductDoc
  Orders : List OrderDoc
  Reviews : List ReviewDoc
  deriving Repr, DecidableEq

/-- pymongo `insert_many`: appends the batch, but an empty batch is an
`InvalidOperation` error (the scripts guard against this with
`if docs:`). -/
def insert_many {α : Type} (coll docs : List α) : Except String (List α) :=
  if docs.isEmpty then .error "InvalidOperation: documents must be a non-empty list"
  else .ok (coll ++ docs)

/-! ### SQL query models -/

/-- Ordering used by `ORDER BY cart_seq_no`. -/
def cartLe (a b : CartRow) : Prop := a.cart_seq_no ≤ b.cart_seq_no

instance : DecidableRel cartLe := fun a b =>
  inferInstanceAs (Decidable (a.cart_seq_no ≤ b.cart_seq_no))

instance : IsTotal CartRow cartLe :=
  ⟨fun a b => Nat.le_total a.cart_seq_no b.cart_seq_no⟩

instance : IsTrans CartRow cartLe :=
  ⟨fun _ _ _ => Nat.le_trans⟩

/-- `SELECT cart_seq_no, … FROM Carts WHERE cust_id = ? ORDER BY cart_seq_no`. -/
def fetchCartRows (db : MySQLDb) (cid : String) : List CartRow :=
  List.insertionSort cartLe (db.carts.filter (fun r => r.cust_id == cid))

/-- `SELECT oi.…, p.prod_name, p.price FROM Ord_items oi JOIN Products p
ON oi.prod_cd = p.prod_cd WHERE oi.ord_no = ?` (inner join). -/
def fetchOrderItemRows (db : MySQLDb) (n : Nat) : List (OrdItemRow × ProductRow) :=
  (db.ord_items.filter (fun oi => oi.ord_no == n)).flatMap
    (fun oi => (db.products.filter (fun p => p.prod_cd == oi.prod_cd)).map
      (fun p => (oi, p)))

/-- `SELECT COUNT(*) FROM Prod_evals WHERE ord_item_no = ?`. -/
def reviewCountFor (db : MySQLDb) (itemNo : Nat) : Nat :=
  (db.prod_evals.filter (fun pe => pe.ord_item_no == itemNo)).length

/-- The three-way join of `migrate_Reviews_collection`:
`Prod_evals pe JOIN Customers c ON pe.cust_id = c.cust_id
JOIN Ord_items oi ON pe.ord_item_no = oi.ord_item_no`. -/
def fetchReviewRows (db : MySQLDb) : List (ProdEvalRow × CustomerRow × OrdItemRow) :=
  db.prod_evals.flatMap (fun pe =>
    (db.customers.filter (fun c => c.cust_id == pe.cust_id)).flatMap (fun c =>
      (db.ord_items.filter (fun oi => oi.ord_item_no == pe.ord_item_no)).map
        (fun oi => (pe, c, oi))))

/-! ### Document assemblers -/

/-- The cart-item dictionary built inside `migrate_Customers_collection`'s
list comprehension. -/
def assembleCartItem (now : Nat) (item : CartRow) : CartDoc :=
  { cart_seq_no := item.cart_seq_no
    prod_cd := item.prod_cd
    prod_size := item.prod_size
    ord_qty := item.ord_qty
    ord_yn := item.ord_yn
    added_date := now }

/-- The `customer_doc` built per customer row by
`migrate_Customers_collection`. -/
def assembleCustomer (now : Nat) (db : MySQLDb) (c : CustomerRow) : CustomerDoc :=
  { doc_id := c.cust_id
    passwd := c.passwd
    cust_name := c.cust_name
    m_phone := c.m_phone
    agree_terms := c.agree_terms
    agree_privacy := c.agree_privacy
    agree_marketing := c.agree_marketing
    created_at := now
    cart := (fetchCartRows db c.cust_id).map (assembleCartItem now) }

/-- The `product_doc` built per product row by
`migrate_Products_collection`. -/
def assembleProduct (p : ProductRow) : ProductDoc :=
  { doc_id := p.prod_cd
    prod_name := p.prod_name
    price := pyInt p.price
    prod_type := p.prod_type
    material := p.material
    prod_img := p.prod_img
    detail := { prod_intro := pyStrOrEmpty p.prod_intro } }

/-- The `item_doc` built per joined order-line row by
`migrate_Orders_collection`; `review_written` is `review_count > 0`. -/
def assembleOrderItem (db : MySQLDb) (x : OrdItemRow × ProductRow) : OrderItemDoc :=
  { ord_item_no := x.1.ord_item_no
    prod_cd := x.1.prod_cd
    prod_name := x.2.prod_name
    prod_size := x.1.prod_size
    unit_price := pyInt x.2.price
    ord_qty := x.1.ord_qty
    cart_seq_no := x.1.cart_seq_no
    review_written := reviewCountFor db x.1.ord_item_no > 0 }

/-- The `order_doc` built per order row by `migrate_Orders_collection`. -/
def assembleOrder (db : MySQLDb) (o : OrderRow) : OrderDoc :=
  { ord_no := o.ord_no
    ord_date := normalizeOrdDate o.ord_date
    ord_amount := pyIntOrZero o.ord_amount
    cust_id := o.cust_id
    items := (fetchOrderItemRows db o.ord_no).map (assembleOrderItem db) }

/-- The `review_doc` built per joined review row by
`migrate_Reviews_collection`. -/
def assembleReview (now : Nat) (x : ProdEvalRow × CustomerRow × OrdItemRow) : ReviewDoc :=
  { prod_cd := x.1.prod_cd
    cust_id := x.1.cust_id
    cust_name := x.2.1.cust_name
    ord_no := x.2.2.ord_no
    ord_item_no := x.1.ord_item_no
    eval_score := x.1.eval_score
    eval_comment := pyStrOrEmpty x.1.eval_comment
    eval_date := now }

/-! ### Collection migration (drop, assemble, guarded bulk insert) -/

/-- `migrate_Customers_collection` / `migrate_customers_collection`: drop,
assemble all docs, bulk-insert only when non-empty.  Returns the new
destination state and the assembled documents. -/
def migrateCustomersCollection (now : Nat) (db : MySQLDb) (mongo : MongoState) :
    Except String (MongoState × List CustomerDoc) := do
  let mongo := { mongo with Customers := [] }
  let docs := db.customers.map (assembleCustomer now db)
  if docs.isEmpty then
    return (mongo, docs)
  else
    let coll ← insert_many mongo.Customers docs
    return ({ mongo with Customers := coll }, docs)

/-- `migrate_Products_collection` / `migrate_products_collection`. -/
def migrateProductsCollection (db : MySQLDb) (mongo : MongoState) :
    Except String (MongoState × List ProductDoc) := do
  let mongo := { mongo with Products := [] }
  let docs := db.products.map assembleProduct
  if docs.isEmpty then
    return (mongo, docs)
  else
    let coll ← insert_many mongo.Products docs
    return ({ mongo with Products := coll }, docs)

/-- `migrate_Orders_collection` / `migrate_orders_collection`. -/
def migrateOrdersCollection (db : MySQLDb) (mongo : MongoState) :
    Except String (MongoState × List OrderDoc) := do
  let mongo := { mongo with Orders := [] }
  let docs := db.orders.map (assembleOrder db)
  if docs.isEmpty then
    return (mongo, docs)
  else
    let coll ← insert_many mongo.Orders docs
    return ({ mongo with Orders := coll }, docs)

/-- `migrate_Reviews_collection` / `migrate_reviews_collection`. -/
def migrateReviewsCollection (now : Nat) (db : MySQLDb) (mongo : MongoState) :
    Except String (MongoState × List ReviewDoc) := do
  let mongo := { mongo with Reviews := [] }
  let docs := (fetchReviewRows db).map (assembleReview now)
  if docs.isEmpty then
    return (mongo, docs)
  else
    let coll ← insert_many mongo.Reviews docs
    return ({ mongo with Reviews := coll }, docs)

/-! ### Index builder -/

/-- The six fixed `create_index` declarations issued by both scripts'
`create_indexes` (key, direction) with direction `"1"`, `"-1"` or
`"text"`. -/
def indexDeclarations : List (String × List (String × String)) :=
  [("Products", [("prod_type", "1"), ("price", "1")]),
   ("Products", [("prod_name", "text")]),
   ("Orders", [("cust_id", "1"), ("ord_date", "-1")]),
   ("Orders", [("items.review_written", "1"), ("cust_id", "1")]),
   ("Reviews", [("prod_cd", "1"), ("eval_date", "-1")]),
   ("Reviews", [("cust_id", "1")])]

/-- Result of `index.py`'s `create_indexes`: the declarations that were
issued and the warnings logged.  A fault `(k, e)` means the `(k+1)`-th
`create_index` call raised `e`. -/
structure IndexBuildResult where
  declared : List (String × List (String × String))
  warnings : List String
  deriving Repr, DecidableEq

/-- `index.py` `create_indexes`: the whole body is wrapped in
`try/except`, and any error is logged with `logger.warning` and
swallowed — the function always returns. -/
def createIndexesHandler (fault : Option (Nat × String)) : IndexBuildResult :=
  match fault with
  | some (k, e) => { declared := indexDeclarations.take k, warnings := [e] }
  | none => { declared := indexDeclarations, warnings := [] }

/-- `MySQL_to_MongoDB.py` `create_indexes`: no `try/except` — an error in
any `create_index` call propagates to the caller. -/
def createIndexesStandalone (fault : Option (Nat × String)) :
    Except String (List (String × List (String × String))) :=
  match fault with
  | some (_, e) => .error e
  | none => .ok indexDeclarations

/-! ### Consistency validator -/

/-- One per-collection count comparison of `index.py`'s
`validate_migration` (`mysql_count`, `mongodb_count`, `match`). -/
structure CountCheck where
  mysql_count : Nat
  mongodb_count : Nat
  matched : Bool
  deriving Repr, DecidableEq

/-- The `customers` entry of the validation result. -/
def customersCheck (db : MySQLDb) (mongo : MongoState) : CountCheck :=
  { mysql_count := db.customers.length
    mongodb_count := mongo.Customers.length
    matched := db.customers.length == mongo.Customers.length }

/-- The `products` entry of the validation result. -/
def productsCheck (db : MySQLDb) (mongo : MongoState) : CountCheck :=
  { mysql_count := db.products.length
    mongodb_count := mongo.Products.length
    matched := db.products.length == mongo.Products.length }

/-- The `orders` entry of the validation result. -/
def ordersCheck (db : MySQLDb) (mongo : MongoState) : CountCheck :=
  { mysql_count := db.orders.length
    mongodb_count := mongo.Orders.length
    matched := db.orders.length == mongo.Orders.length }

/-- The `reviews` entry of the validation result (source rows are counted
from `Prod_evals`). -/
def reviewsCheck (db : MySQLDb) (mongo : MongoState) : CountCheck :=
  { mysql_count := db.prod_evals.length
    mongodb_count := mongo.Reviews.length
    matched := db.prod_evals.length == mongo.Reviews.length }

/-- The dictionary returned by `index.py`'s `validate_migration`; on an
error the per-collection entries set before the raise are kept (`none` =
key absent from the dict). -/
structure ValidationResults where
  customers : Option CountCheck
  products : Option CountCheck
  orders : Option CountCheck
  reviews : Option CountCheck
  error : Option String
  overall_success : Bool
  deriving Repr, DecidableEq

/-- `index.py` `validate_migration`: counts each of the four pairs and
ANDs the `match` booleans; any exception in the body is caught, recorded
under `error`, and forces `overall_success := false`.  A fault means the
first destination count call raised, so no per-collection entry was set. -/
def validate_migration (db : MySQLDb) (mongo : MongoState)
    (mongoFault : Option String) : ValidationResults :=
  match mongoFault with
  | some e =>
    { customers := none, products := none, orders := none, reviews := none
      error := some e, overall_success := false }
  | none =>
    let c := customersCheck db mongo
    let p := productsCheck db mongo
    let o := ordersCheck db mongo
    let r := reviewsCheck db mongo
    { customers := some c, products := some p, orders := some o, reviews := some r
      error := none
      overall_success := c.matched && p.matched && o.matched && r.matched }

/-- `MySQL_to_MongoDB.py` `validate_migration`: no `try/except`, returns
nothing; the observable output is the four printed count pairs, and any
error from a count call propagates to `main`. -/
def validateMigrationStandalone (db : MySQLDb) (mongo : MongoState)
    (mongoFault : Option String) : Except String (List (Nat × Nat)) :=
  match mongoFault with
  | some e => .error e
  | none => .ok
    [(db.customers.length, mongo.Customers.length),
     (db.products.length, mongo.Products.length),
     (db.orders.length, mongo.Orders.length),
     (db.prod_evals.length, mongo.Reviews.length)]

/-! ### Serverless handler (`index.py` `lambda_handler`) -/

/-- `os.environ`: an association list of set environment variables. -/
structure Env where
  vars : List (String × String)
  deriving Repr, DecidableEq

/-- `os.environ.get(k)`. -/
def Env.get (env : Env) (k : String) : Option String :=
  (env.vars.find? (fun p => p.1 == k)).map (·.2)

/-- Python truthiness test `not os.environ.get(var)`: unset and empty
values are both falsy. -/
def pyFalsyStr : Option String → Bool
  | none => true
  | some t => t == ""

/-- The `required_vars` literal of `lambda_handler`. -/
def requiredVars : List String :=
  ["MYSQL_HOST", "MYSQL_USER", "MYSQL_PASSWORD", "MONGODB_URI"]

/-- `missing_vars = [var for var in required_vars if not os.environ.get(var)]`. -/
def missingVars (env : Env) : List String :=
  requiredVars.filter (fun v => pyFalsyStr (env.get v))

/-- The Lambda event: optional `collections`, `create_indexes` and
`validate` entries (absent entries take the documented defaults). -/
structure LambdaEvent where
  collections : Option (List String)
  create_indexes_flag : Option Bool
  validate_flag : Option Bool
  deriving Repr, DecidableEq

/-- A raised Python exception: its type name and message. -/
structure PyErr where
  ty : String
  msg : String
  deriving Repr, DecidableEq

/-- One value of the `migration_results` dict for a collection, as built
by the `migrate_*_collection` functions of `index.py`;
`duration_recorded` models the later `['duration_seconds'] = …` write. -/
structure MigrationEntry where
  count : Nat
  collection_name : String
  mysql_records : Nat
  mongodb_documents : Nat
  duration_recorded : Bool
  deriving Repr, DecidableEq

/-- Python dict read `d[k]` (as an option; a `None` here is a `KeyError`). -/
def dictGet {α : Type} : List (String × α) → String → Option α
  | [], _ => none
  | p :: d, k => if p.1 == k then some p.2 else dictGet d k

/-- Python dict write `d[k] = v`: replaces the entry in place when the
key exists, appends it otherwise. -/
def dictSet {α : Type} : List (String × α) → String → α → List (String × α)
  | [], k, v => [(k, v)]
  | p :: d, k, v => if p.1 == k then (k, v) :: d else p :: dictSet d k v

/-- The result dict a `migrate_*_collection` function of `index.py`
returns. -/
def mkMigrationEntry (name : String) (mysqlRecords docCount : Nat) : MigrationEntry :=
  { count := docCount
    collection_name := name
    mysql_records := mysqlRecords
    mongodb_documents := docCount
    duration_recorded := false }

/-- One arm of the `if collection == …` dispatch chain in
`lambda_handler`'s loop: an unknown name matches no arm and leaves both
the destination and `migration_results` untouched. -/
def dispatchStep (now : Nat) (db : MySQLDb) (c : String) (mongo : MongoState)
    (results : List (String × MigrationEntry)) :
    Except String (MongoState × List (String × MigrationEntry)) :=
  if c == "Products" then
    (migrateProductsCollection db mongo).map (fun r =>
      (r.1, dictSet results "Products"
        (mkMigrationEntry "Products" db.products.length r.2.length)))
  else if c == "Customers" then
    (migrateCustomersCollection now db mongo).map (fun r =>
      (r.1, dictSet results "Customers"
        (mkMigrationEntry "Customers" db.customers.length r.2.length)))
  else if c == "Orders" then
    (migrateOrdersCollection db mongo).map (fun r =>
      (r.1, dictSet results "Orders"
        (mkMigrationEntry "Orders" db.orders.length r.2.length)))
  else if c == "Reviews" then
    (migrateReviewsCollection now db mongo).map (fun r =>
      (r.1, dictSet results "Reviews"
        (mkMigrationEntry "Reviews" (fetchReviewRows db).length r.2.length)))
  else
    .ok (mongo, results)

/-- `lambda_handler`'s per-collection loop.  After the dispatch chain it
unconditionally executes
`migration_results[collection]['duration_seconds'] = …`, which raises a
`KeyError` when the name matched no arm.  Returns the destination state
and results as they stand when the loop ends or the first exception is
raised. -/
def dispatchLoop (now : Nat) (db : MySQLDb) :
    List String → MongoState → List (String × MigrationEntry) →
    MongoState × List (String × MigrationEntry) × Option PyErr
  | [], mongo, results => (mongo, results, none)
  | c :: rest, mongo, results =>
    match dispatchStep now db c mongo results with
    | .error e => (mongo, results, some ⟨"InvalidOperation", e⟩)
    | .ok (m, r) =>
      match dictGet r c with
      | none => (m, r, some ⟨"KeyError", c⟩)
      | some entry =>
        dispatchLoop now db rest m (dictSet r c { entry with duration_recorded := true })

/-- The `statusCode`/`body` response envelope returned by
`lambda_handler`. -/
structure HandlerResponse where
  statusCode : Nat
  success : Bool
  error : Option String
  error_type : Option String
  deriving Repr, DecidableEq

/-- Observable outcome of one `lambda_handler` run: the response, the
`migration_results` accumulated, the logged warnings, the validation
result, the final destination state, the I/O actions performed against
the stores, and whether the opened connections were closed. -/
structure HandlerOutcome where
  response : HandlerResponse
  results : List (String × MigrationEntry)
  indexes_created : Bool
  warnings : List String
  validation : Option ValidationResults
  finalMongo : MongoState
  io : List String
  connectionsClosed : Bool
  deriving Repr, DecidableEq

/-- `index.py` `lambda_handler`.  Validates the required environment
variables before any connection is opened (raising `ValueError` on a
miss, turned into a 500 response by the outer `except`); then connects,
runs the dispatch loop, the index builder (warnings only) and the
validator, and closes the connections on both the success and the
`except` paths.  `indexFault`/`validateFault` inject store errors into
those two stages. -/
def lambda_handler (env : Env) (event : LambdaEvent) (now : Nat) (db : MySQLDb)
    (mongo0 : MongoState) (indexFault : Option (Nat × String))
    (validateFault : Option String) : HandlerOutcome :=
  let missing := missingVars env
  if !missing.isEmpty then
    { response :=
        { statusCode := 500, success := false
          error := some ("필수 환경 변수가 누락되었습니다: " ++ String.intercalate ", " missing)
          error_type := some "ValueError" }
      results := [], indexes_created := false, warnings := []
      validation := none, finalMongo := mongo0, io := []
      connectionsClosed := true }
  else
    let io := ["mysql.connector.connect", "MongoClient"]
    let collections := event.collections.getD ["Products", "Customers", "Orders", "Reviews"]
    let ciFlag := event.create_indexes_flag.getD true
    let vFlag := event.validate_flag.getD true
    match dispatchLoop now db collections mongo0 [] with
    | (mongo1, results1, some err) =>
      { response :=
          { statusCode := 500, success := false
            error := some err.msg, error_type := some err.ty }
        results := results1, indexes_created := false, warnings := []
        validation := none, finalMongo := mongo1, io := io
        connectionsClosed := true }
    | (mongo1, results1, none) =>
      let idx := if ciFlag then some (createIndexesHandler indexFault) else none
      let validation := if vFlag then some (validate_migration db mongo1 validateFault) else none
      { response := { statusCode := 200, success := true, error := none, error_type := none }
        results := results1
        indexes_created := ciFlag
        warnings := (idx.map IndexBuildResult.warnings).getD []
        validation := validation
        finalMongo := mongo1
        io := io
        connectionsClosed := true }

/-! ### Standalone entry point (`MySQL_to_MongoDB.py` `main`) -/

/-- Observable outcome of one `main()` run of the standalone script. -/
structure MainOutcome where
  io : List String
  mysqlOpened : Bool
  mysqlClosed : Bool
  mongoOpened : Bool
  mongoClientClosed : Bool
  errorPrinted : Option String
  raised : Option String
  validationCounts : Option (List (Nat × Nat))
  indexesDeclared : List (String × List (String × String))
  finalMongo : MongoState
  deriving Repr, DecidableEq

/-- `MySQL_to_MongoDB.py` `main`.  The two connections are opened
*before* the `try:` block; the `except` prints a generic error message;
`finally` closes the MySQL cursor and connection; the Mongo client is
never closed explicitly.  Faults inject errors into the connection,
index-build and validation steps. -/
def pyMain (env : Env) (now : Nat) (db : MySQLDb) (mongo0 : MongoState)
    (mysqlConnectFault mongoConnectFault : Option String)
    (indexFault : Option (Nat × String)) (validateFault : Option String) :
    MainOutcome :=
  -- connect_to_mysql(): reads the config without any validation and
  -- always issues the connection attempt, even with unset values
  let io := ["mysql.connector.connect host=" ++ (env.get "MYSQL_HOST").getD "None"]
  match mysqlConnectFault with
  | some e =>
    { io, mysqlOpened := false, mysqlClosed := false, mongoOpened := false
      mongoClientClosed := false, errorPrinted := none, raised := some e
      validationCounts := none, indexesDeclared := [], finalMongo := mongo0 }
  | none =>
    let io := io ++ ["MongoClient uri=" ++ (env.get "MONGODB_URI").getD "None"]
    match mongoConnectFault with
    | some e =>
      -- raised before the try/finally is entered: nothing is closed
      { io, mysqlOpened := true, mysqlClosed := false, mongoOpened := false
        mongoClientClosed := false, errorPrinted := none, raised := some e
        validationCounts := none, indexesDeclared := [], finalMongo := mongo0 }
    | none =>
      let body : Except String (MongoState × List (String × List (String × String)) × List (Nat × Nat)) := do
        let (m1, _) ← migrateProductsCollection db mongo0
        let (m2, _) ← migrateCustomersCollection now db m1
        let (m3, _) ← migrateOrdersCollection db m2
        let (m4, _) ← migrateReviewsCollection now db m3
        let decls ← createIndexesStandalone indexFault
        let counts ← validateMigrationStandalone db m4 validateFault
        return (m4, decls, counts)
      match body with
      | .error e =>
        -- except: print; finally: close MySQL cursor and connection
        { io, mysqlOpened := true, mysqlClosed := true, mongoOpened := true
          mongoClientClosed := false
          errorPrinted := some ("이관 중 오류 발생: " ++ e), raised := none
          validationCounts := none, indexesDeclared := [], finalMongo := mongo0 }
      | .ok (m4, decls, counts) =>
        { io, mysqlOpened := true, mysqlClosed := true, mongoOpened := true
          mongoClientClosed := false, errorPrinted := none, raised := none
          validationCounts := some counts, indexesDeclared := decls
          finalMongo := m4 }

/-! ### Helper lemmas -/

/-- In a list with pairwise-distinct keys, filtering the mapped list by
the key of a member yields exactly that member's image. -/
theorem filter_key_map_nodup {α κ β : Type} [BEq κ] [LawfulBEq κ]
    (f : α → β) (k : α → κ) (kd : β → κ) (hk : ∀ a, kd (f a) = k a) :
    ∀ (L : List α), (L.map k).Nodup → ∀ c ∈ L,
      (L.map f).filter (fun d => kd d == k c) = [f c] := by
  intro L
  induction L with
  | nil => intro _ c hc; cases hc
  | cons a L ih =>
    intro hnd c hc
    rw [List.map_cons, List.nodup_cons] at hnd
    rcases List.mem_cons.mp hc with rfl | hcL
    · rw [List.map_cons, List.filter_cons]
      have hhead : (kd (f c) == k c) = true := by rw [hk]; exact beq_self_eq_true _
      rw [if_pos hhead]
      have htail : (L.map f).filter (fun d => kd d == k c) = [] := by
        rw [List.filter_eq_nil_iff]
        intro d hd
        rcases List.mem_map.mp hd with ⟨x, hx, rfl⟩
        simp only [hk, beq_iff_eq]
        intro hkx
        exact hnd.1 (hkx ▸ List.mem_map_of_mem k hx)
      rw [htail]
    · rw [List.map_cons, List.filter_cons]
      have hhead : (kd (f a) == k c) = false := by
        simp only [hk, beq_eq_false_iff_ne, ne_eq]
        intro hka
        exact hnd.1 (hka ▸ List.mem_map_of_mem k hcL)
      rw [if_neg (by simp [hhead])]
      exact ih hnd.2 c hcL

/-- In a list with pairwise-distinct keys, filtering by a key that some
member carries yields exactly one element. -/
theorem length_filter_key_unique {α κ : Type} [BEq κ] [LawfulBEq κ] (k : α → κ)
    (L : List α) (hnd : (L.map k).Nodup) (x : κ) (hx : ∃ a ∈ L, k a = x) :
    (L.filter (fun a => k a == x)).length = 1 := by
  rcases hx with ⟨a, ha, rfl⟩
  have h := filter_key_map_nodup (id : α → α) k k (fun _ => rfl) L hnd a ha
  rw [List.map_id] at h
  rw [h]
  rfl

/-- A flat-map whose every fibre is a singleton preserves length. -/
theorem length_flatMap_singletons {α β : Type} (g : α → List β) :
    ∀ (L : List α), (∀ a ∈ L, (g a).length = 1) →
      (L.flatMap g).length = L.length := by
  intro L
  induction L with
  | nil => intro _; rfl
  | cons a L ih =>
    intro h
    rw [List.flatMap_cons, List.length_append, ih (fun x hx => h x (List.mem_cons_of_mem a hx)),
      h a (List.mem_cons_self a L), List.length_cons, Nat.add_comm]

/-- Closed form of the products migration: it always succeeds, clears the
collection, and loads exactly the assembled documents. -/
theorem migrateProducts_eq (db : MySQLDb) (mongo : MongoState) :
    migrateProductsCollection db mongo
      = .ok ({ mongo with Products := db.products.map assembleProduct },
             db.products.map assembleProduct) := by
  unfold migrateProductsCollection insert_many
  cases h : (db.products.map assembleProduct).isEmpty with
  | true =>
    simp only [List.isEmpty_iff.mp h]
    rfl
  | false => simp [h]

/-- Closed form of the customers migration. -/
theorem migrateCustomers_eq (now : Nat) (db : MySQLDb) (mongo : MongoState) :
    migrateCustomersCollection now db mongo
      = .ok ({ mongo with Customers := db.customers.map (assembleCustomer now db) },
             db.customers.map (assembleCustomer now db)) := by
  unfold migrateCustomersCollection insert_many
  cases h : (db.customers.map (assembleCustomer now db)).isEmpty with
  | true =>
    simp only [List.isEmpty_iff.mp h]
    rfl
  | false => simp [h]

/-- Closed form of the orders migration. -/
theorem migrateOrders_eq (db : MySQLDb) (mongo : MongoState) :
    migrateOrdersCollection db mongo
      = .ok ({ mongo with Orders := db.orders.map (assembleOrder db) },
             db.orders.map (assembleOrder db)) := by
  unfold migrateOrdersCollection insert_many
  cases h : (db.orders.map (assembleOrder db)).isEmpty with
  | true =>
    simp only [List.isEmpty_iff.mp h]
    rfl
  | false => simp [h]

/-- Closed form of the reviews migration. -/
theorem migrateReviews_eq (now : Nat) (db : MySQLDb) (mongo : MongoState) :
    migrateReviewsCollection now db mongo
      = .ok ({ mongo with Reviews := (fetchReviewRows db).map (assembleReview now) },
             (fetchReviewRows db).map (assembleReview now)) := by
  unfold migrateReviewsCollection insert_many
  cases h : ((fetchReviewRows db).map (assembleReview now)).isEmpty with
  | true =>
    simp only [List.isEmpty_iff.mp h]
    rfl
  | false => simp [h]

/-! ### Sample data for witnesses and counterexamples -/

/-- A small source database: one customer with two cart rows (stored out
of sequence order), two products, one order with two lines, one review
referencing line 1 only. -/
def sampleDb : MySQLDb :=
  { customers := [⟨"alice@example.com", "pw1", "Alice", "010-1111-2222", "Y", "Y", "N"⟩]
    carts := [⟨2, "alice@example.com", "P1", "M", 1, "N"⟩,
              ⟨1, "alice@example.com", "P2", "L", 2, "Y"⟩]
    products := [⟨"P1", "Shirt", (20 : ℚ), "top", "cotton", "p1.jpg", none⟩,
                 ⟨"P2", "Pants", (30 : ℚ), "bottom", "poly", "p2.jpg", some "nice pants"⟩]
    orders := [⟨100, .date 20240101, some (50 : ℚ), "alice@example.com"⟩]
    ord_items := [⟨1, 100, 1, "P1", "M", 1⟩, ⟨2, 100, 2, "P2", "L", 2⟩]
    prod_evals := [⟨1, 5, none, "alice@example.com", "P1", 1⟩] }

/-- A source database whose six tables are all empty. -/
def emptyDb : MySQLDb := ⟨[], [], [], [], [], []⟩

/-- An empty destination state. -/
def mongoEmpty : MongoState := ⟨[], [], [], []⟩

/-- A destination state holding stale documents from a previous run, used
to observe the clear step. -/
def mongoStale : MongoState :=
  { Customers := [⟨"stale@example.com", "x", "Stale", "0", "N", "N", "N", 0, []⟩]
    Products := [⟨"OLD", "Old", 1, "top", "wool", "old.jpg", ⟨""⟩⟩]
    Orders := [⟨9, .datetime 0 0, 0, "stale@example.com", []⟩]
    Reviews := [⟨"OLD", "stale@example.com", "Stale", 9, 9, 1, "", 0⟩] }

/-- An environment with every required variable set. -/
def envFull : Env :=
  ⟨[("MYSQL_HOST", "h"), ("MYSQL_USER", "u"), ("MYSQL_PASSWORD", "p"),
    ("MYSQL_DATABASE", "shopping_db"), ("MONGODB_URI", "mongodb://x"),
    ("MONGODB_DATABASE", "shopping_db")]⟩

/-- An environment lacking `MYSQL_HOST`. -/
def envMissingHost : Env :=
  ⟨[("MYSQL_USER", "u"), ("MYSQL_PASSWORD", "p"), ("MONGODB_URI", "mongodb://x")]⟩

/-- A product row whose exact-decimal price is 19.99. -/
def rowPrice1999 : ProductRow :=
  ⟨"PX", "Decimal priced", 1999/100, "top", "cotton", "px.jpg", none⟩

/-- A product row whose price is the integer 7. -/
def rowPrice7 : ProductRow :=
  ⟨"PY", "Integer priced", ((7 : ℤ) : ℚ), "top", "cotton", "py.jpg", none⟩

/-! ### Claim theorems -/

/-- C3. The product assembler converts the exact-decimal source price
to an integer by truncation, not rounding: a source price of 19.99 is
stored as 19, and an already-integer price is left unchanged. -/
theorem product_price_truncated_not_rounded (r s : ProductRow) (n : ℤ)
    (hr : r.price = 1999 / 100) (hs : s.price = (n : ℚ)) :
    (assembleProduct r).price = 19 ∧ (assembleProduct s).price = n := by
  constructor
  · show pyInt r.price = 19
    rw [hr]
    norm_num [pyInt]
    decide
  · show pyInt s.price = n
    rw [hs]
    unfold pyInt
    rw [Rat.num_intCast, Rat.den_intCast]
    exact Int.tdiv_one n

/-- Witness for the price-truncation theorem at the concrete prices 19.99
and 7. -/
theorem product_price_truncated_not_rounded_witness :
    rowPrice1999.price = 1999 / 100 ∧ rowPrice7.price = ((7 : ℤ) : ℚ)
    ∧ ((assembleProduct rowPrice1999).price = 19
        ∧ (assembleProduct rowPrice7).price = 7) :=
  ⟨rfl, rfl, product_price_truncated_not_rounded rowPrice1999 rowPrice7 7 rfl rfl⟩

/-- C4. A null optional description (product) or comment (review)
materializes as the empty string in the assembled document — the product
description inside the nested `detail` sub-object — never as a missing
or null field (the destination fields have type `String`). -/
theorem null_text_fields_become_empty_string (now : Nat) (p : ProductRow)
    (t : ProdEvalRow × CustomerRow × OrdItemRow)
    (hp : p.prod_intro = none) (ht : t.1.eval_comment = none) :
    (assembleProduct p).detail.prod_intro = "" ∧ (assembleReview now t).eval_comment = "" := by
  constructor
  · show pyStrOrEmpty p.prod_intro = ""
    rw [hp]
    rfl
  · show pyStrOrEmpty t.1.eval_comment = ""
    rw [ht]
    rfl

/-- Witness for the null-field theorem on a product row and a joined
review row with null text fields. -/
theorem null_text_fields_become_empty_string_witness :
    rowPrice7.prod_intro = none
    ∧ (⟨1, 5, none, "alice@example.com", "P1", 1⟩ : ProdEvalRow).eval_comment = none
    ∧ ((assembleProduct rowPrice7).detail.prod_intro = ""
        ∧ (assembleReview 3 (⟨1, 5, none, "alice@example.com", "P1", 1⟩,
            ⟨"alice@example.com", "pw1", "Alice", "010-1111-2222", "Y", "Y", "N"⟩,
            ⟨1, 100, 1, "P1", "M", 1⟩)).eval_comment = "") :=
  ⟨rfl, rfl, null_text_fields_become_empty_string 3 rowPrice7
    (⟨1, 5, none, "alice@example.com", "P1", 1⟩,
     ⟨"alice@example.com", "pw1", "Alice", "010-1111-2222", "Y", "Y", "N"⟩,
     ⟨1, 100, 1, "P1", "M", 1⟩) rfl rfl⟩

/-- C7 (counterexample). In the standalone script, a validation-stage
error is *not* caught by the validator: `validate_migration` of
`MySQL_to_MongoDB.py` has no handler and the exception propagates to
`main`, which prints a generic error; no validation result is returned.
So the claim, quantified over every run, fails on a standalone run. -/
theorem standalone_validation_error_propagates :
    validateMigrationStandalone sampleDb mongoEmpty (some "count failed")
      = .error "count failed"
    ∧ (pyMain envFull 0 sampleDb mongoEmpty none none none (some "count failed")).validationCounts
        = none
    ∧ (pyMain envFull 0 sampleDb mongoEmpty none none none (some "count failed")).errorPrinted
        = some "이관 중 오류 발생: count failed" := by
  refine ⟨rfl, ?_, ?_⟩ <;> rfl

/-- C7 (amended). In the serverless handler's validator, an error
raised inside the validation body is caught and recorded in the returned
result with its message and forces `overall_success = false`; when no
error occurs, `overall_success` is the conjunction of the four
per-collection count matches. -/
theorem validation_error_recorded_and_success_is_conjunction
    (db : MySQLDb) (mongo : MongoState) (e : String) :
    ((validate_migration db mongo (some e)).error = some e
      ∧ (validate_migration db mongo (some e)).overall_success = false)
    ∧ (validate_migration db mongo none).error = none
    ∧ (validate_migration db mongo none).overall_success
        = ((customersCheck db mongo).matched && (productsCheck db mongo).matched
            && (ordersCheck db mongo).matched && (reviewsCheck db mongo).matched) :=
  ⟨⟨rfl, rfl⟩, rfl, rfl⟩

/-- The single customer row of `sampleDb`. -/
def aliceRow : CustomerRow :=
  ⟨"alice@example.com", "pw1", "Alice", "010-1111-2222", "Y", "Y", "N"⟩

/-- C1. Under the source primary-key invariant (distinct customer
identifiers), the customer assembler emits exactly one document per
customer identifier, whose embedded `cart` array has exactly as many
entries as that customer's cart rows, in ascending `cart_seq_no` order. -/
theorem customer_docs_one_per_id_cart_complete_sorted
    (now : Nat) (db : MySQLDb)
    (hpk : (db.customers.map CustomerRow.cust_id).Nodup)
    (c : CustomerRow) (hc : c ∈ db.customers) :
    (db.customers.map (assembleCustomer now db)).filter
        (fun d => d.doc_id == c.cust_id) = [assembleCustomer now db c]
    ∧ (assembleCustomer now db c).cart.length
        = (db.carts.filter (fun r => r.cust_id == c.cust_id)).length
    ∧ (assembleCustomer now db c).cart.Pairwise
        (fun a b => a.cart_seq_no ≤ b.cart_seq_no) := by
  refine ⟨?_, ?_, ?_⟩
  · exact filter_key_map_nodup (assembleCustomer now db) CustomerRow.cust_id
      CustomerDoc.doc_id (fun _ => rfl) db.customers hpk c hc
  · show ((fetchCartRows db c.cust_id).map (assembleCartItem now)).length = _
    rw [List.length_map, fetchCartRows, List.length_insertionSort]
  · show ((fetchCartRows db c.cust_id).map (assembleCartItem now)).Pairwise _
    rw [List.pairwise_map]
    exact (List.sorted_insertionSort cartLe _).imp (fun h => h)

/-- Witness for the customer-assembler theorem on `sampleDb`, whose two
cart rows are stored out of sequence order. -/
theorem customer_docs_one_per_id_cart_complete_sorted_witness :
    ((sampleDb.customers.map CustomerRow.cust_id).Nodup
      ∧ aliceRow ∈ sampleDb.customers)
    ∧ ((sampleDb.customers.map (assembleCustomer 3 sampleDb)).filter
          (fun d => d.doc_id == aliceRow.cust_id) = [assembleCustomer 3 sampleDb aliceRow]
        ∧ (assembleCustomer 3 sampleDb aliceRow).cart.length
            = (sampleDb.carts.filter (fun r => r.cust_id == aliceRow.cust_id)).length
        ∧ (assembleCustomer 3 sampleDb aliceRow).cart.Pairwise
            (fun a b => a.cart_seq_no ≤ b.cart_seq_no)) :=
  ⟨⟨by decide, by decide⟩,
   customer_docs_one_per_id_cart_complete_sorted 3 sampleDb (by decide) aliceRow (by decide)⟩

/-- The single order row of `sampleDb`. -/
def order100 : OrderRow := ⟨100, .date 20240101, some (50 : ℚ), "alice@example.com"⟩

/-- C2. Under the source schema invariants (distinct product codes,
every order line's product code present in `Products`, distinct order
numbers), the order assembler emits one document per order whose `items`
array has exactly one entry per matching order-line row, and each entry's
`review_written` flag is true iff at least one review row references that
order line. -/
theorem order_docs_items_complete_review_flag
    (db : MySQLDb)
    (hpk : (db.products.map ProductRow.prod_cd).Nodup)
    (hfk : ∀ oi ∈ db.ord_items, ∃ p ∈ db.products, p.prod_cd = oi.prod_cd)
    (hond : (db.orders.map OrderRow.ord_no).Nodup)
    (o : OrderRow) (ho : o ∈ db.orders) :
    (db.orders.map (assembleOrder db)).filter
        (fun d => d.ord_no == o.ord_no) = [assembleOrder db o]
    ∧ (assembleOrder db o).items.length
        = (db.ord_items.filter (fun oi => oi.ord_no == o.ord_no)).length
    ∧ ∀ it ∈ (assembleOrder db o).items,
        (it.review_written = true ↔ ∃ pe ∈ db.prod_evals, pe.ord_item_no = it.ord_item_no) := by
  refine ⟨?_, ?_, ?_⟩
  · exact filter_key_map_nodup (assembleOrder db) OrderRow.ord_no OrderDoc.ord_no
      (fun _ => rfl) db.orders hond o ho
  · show ((fetchOrderItemRows db o.ord_no).map (assembleOrderItem db)).length = _
    rw [List.length_map, fetchOrderItemRows]
    apply length_flatMap_singletons
    intro oi hoi
    rw [List.length_map]
    exact length_filter_key_unique ProductRow.prod_cd db.products hpk oi.prod_cd
      (hfk oi (List.mem_of_mem_filter hoi))
  · intro it hit
    rcases List.mem_map.mp hit with ⟨x, hx, rfl⟩
    simp only [assembleOrderItem, gt_iff_lt, decide_eq_true_eq]
    rw [reviewCountFor, List.length_pos_iff_exists_mem]
    constructor
    · rintro ⟨pe, hpe⟩
      rcases List.mem_filter.mp hpe with ⟨h1, h2⟩
      exact ⟨pe, h1, by simpa using h2⟩
    · rintro ⟨pe, h1, h2⟩
      exact ⟨pe, List.mem_filter.mpr ⟨h1, by simpa using h2⟩⟩

/-- Witness for the order-assembler theorem on `sampleDb`, where line 1
has a review and line 2 does not. -/
theorem order_docs_items_complete_review_flag_witness :
    ((sampleDb.products.map ProductRow.prod_cd).Nodup
      ∧ (∀ oi ∈ sampleDb.ord_items, ∃ p ∈ sampleDb.products, p.prod_cd = oi.prod_cd)
      ∧ (sampleDb.orders.map OrderRow.ord_no).Nodup
      ∧ order100 ∈ sampleDb.orders)
    ∧ ((sampleDb.orders.map (assembleOrder sampleDb)).filter
          (fun d => d.ord_no == order100.ord_no) = [assembleOrder sampleDb order100]
        ∧ (assembleOrder sampleDb order100).items.length
            = (sampleDb.ord_items.filter (fun oi => oi.ord_no == order100.ord_no)).length
        ∧ ∀ it ∈ (assembleOrder sampleDb order100).items,
            (it.review_written = true
              ↔ ∃ pe ∈ sampleDb.prod_evals, pe.ord_item_no = it.ord_item_no)) :=
  ⟨⟨by decide, by decide, by decide, by decide⟩,
   order_docs_items_complete_review_flag sampleDb (by decide) (by decide) (by decide)
     order100 (by decide)⟩

/-- C5. For an entity whose source table is empty, the corresponding
migration produces an empty document list, still clears the destination
collection (whatever it held), treats the bulk insert as a no-op rather
than an error (the result is `ok`, although pymongo rejects empty
batches), and the validator reports a 0-vs-0 count match for that
collection. -/
theorem empty_source_table_clean_noop_insert_match
    (now : Nat) (db : MySQLDb) (mongo : MongoState) :
    (db.customers = [] →
      migrateCustomersCollection now db mongo = .ok ({ mongo with Customers := [] }, [])
      ∧ (validate_migration db { mongo with Customers := [] } none).customers
          = some ⟨0, 0, true⟩)
    ∧ (db.products = [] →
      migrateProductsCollection db mongo = .ok ({ mongo with Products := [] }, [])
      ∧ (validate_migration db { mongo with Products := [] } none).products
          = some ⟨0, 0, true⟩)
    ∧ (db.orders = [] →
      migrateOrdersCollection db mongo = .ok ({ mongo with Orders := [] }, [])
      ∧ (validate_migration db { mongo with Orders := [] } none).orders
          = some ⟨0, 0, true⟩)
    ∧ (db.prod_evals = [] →
      migrateReviewsCollection now db mongo = .ok ({ mongo with Reviews := [] }, [])
      ∧ (validate_migration db { mongo with Reviews := [] } none).reviews
          = some ⟨0, 0, true⟩) := by
  refine ⟨fun h => ⟨?_, ?_⟩, fun h => ⟨?_, ?_⟩, fun h => ⟨?_, ?_⟩, fun h => ⟨?_, ?_⟩⟩
  · rw [migrateCustomers_eq, h]; rfl
  · simp [validate_migration, customersCheck, h]
  · rw [migrateProducts_eq, h]; rfl
  · simp [validate_migration, productsCheck, h]
  · rw [migrateOrders_eq, h]; rfl
  · simp [validate_migration, ordersCheck, h]
  · rw [migrateReviews_eq]
    have hrv : fetchReviewRows db = [] := by rw [fetchReviewRows, h]; rfl
    rw [hrv]; rfl
  · simp [validate_migration, reviewsCheck, h]

/-- Witness for the empty-source theorem on the empty database against a
destination still holding stale documents. -/
theorem empty_source_table_clean_noop_insert_match_witness :
    (emptyDb.customers = [] ∧ emptyDb.products = [] ∧ emptyDb.orders = []
      ∧ emptyDb.prod_evals = [])
    ∧ (migrateCustomersCollection 7 emptyDb mongoStale
          = .ok ({ mongoStale with Customers := [] }, [])
        ∧ (validate_migration emptyDb { mongoStale with Customers := [] } none).customers
            = some ⟨0, 0, true⟩)
    ∧ (migrateProductsCollection emptyDb mongoStale
          = .ok ({ mongoStale with Products := [] }, [])
        ∧ (validate_migration emptyDb { mongoStale with Products := [] } none).products
            = some ⟨0, 0, true⟩)
    ∧ (migrateOrdersCollection emptyDb mongoStale
          = .ok ({ mongoStale with Orders := [] }, [])
        ∧ (validate_migration emptyDb { mongoStale with Orders := [] } none).orders
            = some ⟨0, 0, true⟩)
    ∧ (migrateReviewsCollection 7 emptyDb mongoStale
          = .ok ({ mongoStale with Reviews := [] }, [])
        ∧ (validate_migration emptyDb { mongoStale with Reviews := [] } none).reviews
            = some ⟨0, 0, true⟩) :=
  ⟨⟨rfl, rfl, rfl, rfl⟩,
   (empty_source_table_clean_noop_insert_match 7 emptyDb mongoStale).1 rfl,
   (empty_source_table_clean_noop_insert_match 7 emptyDb mongoStale).2.1 rfl,
   (empty_source_table_clean_noop_insert_match 7 emptyDb mongoStale).2.2.1 rfl,
   (empty_source_table_clean_noop_insert_match 7 emptyDb mongoStale).2.2.2 rfl⟩

/-- C6 (counterexample). In the standalone script `create_indexes`
has no internal handler: an index-build error is caught only by `main`'s
generic `except`, which prints it as an error (not a warning) and skips
validation, so the claim fails on standalone runs. -/
theorem standalone_index_error_skips_validation :
    (pyMain envFull 0 sampleDb mongoEmpty none none (some (0, "permission denied")) none).validationCounts
      = none
    ∧ (pyMain envFull 0 sampleDb mongoEmpty none none (some (0, "permission denied")) none).errorPrinted
        = some "이관 중 오류 발생: permission denied" := ⟨rfl, rfl⟩

/-- C6 (amended). In the serverless handler an index-build error is
swallowed inside `create_indexes` and logged as a warning: the run
returns 200/success, `migration_results` still carries every
per-collection count, and validation still runs and returns its result. -/
theorem index_build_error_warning_in_handler
    (env : Env) (event : LambdaEvent) (now : Nat) (db : MySQLDb) (mongo0 : MongoState)
    (k : Nat) (e : String)
    (henv : missingVars env = [])
    (hci : event.create_indexes_flag.getD true = true)
    (hv : event.validate_flag.getD true = true)
    (hok : (dispatchLoop now db
        (event.collections.getD ["Products", "Customers", "Orders", "Reviews"]) mongo0 []).2.2
        = none) :
    (lambda_handler env event now db mongo0 (some (k, e)) none).response.statusCode = 200
    ∧ (lambda_handler env event now db mongo0 (some (k, e)) none).response.success = true
    ∧ (lambda_handler env event now db mongo0 (some (k, e)) none).warnings = [e]
    ∧ (lambda_handler env event now db mongo0 (some (k, e)) none).indexes_created = true
    ∧ (lambda_handler env event now db mongo0 (some (k, e)) none).results
        = (dispatchLoop now db
            (event.collections.getD ["Products", "Customers", "Orders", "Reviews"]) mongo0 []).2.1
    ∧ (lambda_handler env event now db mongo0 (some (k, e)) none).validation
        = some (validate_migration db
            (lambda_handler env event now db mongo0 (some (k, e)) none).finalMongo none) := by
  have hb : (missingVars env).isEmpty = true := by rw [henv]; rfl
  rcases hd : dispatchLoop now db
      (event.collections.getD ["Products", "Customers", "Orders", "Reviews"]) mongo0 []
    with ⟨m1, r1, err⟩
  rw [hd] at hok
  have herr : err = none := hok
  subst herr
  simp only [lambda_handler, hb, Bool.not_true, Bool.false_eq_true, if_false, hd, hci, hv,
    if_true, createIndexesHandler]
  refine ⟨?_, ?_, ?_, ?_, ?_, ?_⟩ <;> trivial

/-- Witness for the handler index-warning theorem: default event on the
sample database with a permission error injected into the index build. -/
theorem index_build_error_warning_in_handler_witness :
    (missingVars envFull = []
      ∧ ((⟨none, none, none⟩ : LambdaEvent).create_indexes_flag.getD true = true)
      ∧ ((⟨none, none, none⟩ : LambdaEvent).validate_flag.getD true = true)
      ∧ (dispatchLoop 3 sampleDb
          ((⟨none, none, none⟩ : LambdaEvent).collections.getD
            ["Products", "Customers", "Orders", "Reviews"]) mongoEmpty []).2.2 = none)
    ∧ ((lambda_handler envFull ⟨none, none, none⟩ 3 sampleDb mongoEmpty
          (some (0, "permission denied")) none).response.statusCode = 200
        ∧ (lambda_handler envFull ⟨none, none, none⟩ 3 sampleDb mongoEmpty
            (some (0, "permission denied")) none).response.success = true
        ∧ (lambda_handler envFull ⟨none, none, none⟩ 3 sampleDb mongoEmpty
            (some (0, "permission denied")) none).warnings = ["permission denied"]
        ∧ (lambda_handler envFull ⟨none, none, none⟩ 3 sampleDb mongoEmpty
            (some (0, "permission denied")) none).indexes_created = true
        ∧ (lambda_handler envFull ⟨none, none, none⟩ 3 sampleDb mongoEmpty
            (some (0, "permission denied")) none).results
            = (dispatchLoop 3 sampleDb
                ((⟨none, none, none⟩ : LambdaEvent).collections.getD
                  ["Products", "Customers", "Orders", "Reviews"]) mongoEmpty []).2.1
        ∧ (lambda_handler envFull ⟨none, none, none⟩ 3 sampleDb mongoEmpty
            (some (0, "permission denied")) none).validation
            = some (validate_migration sampleDb
                (lambda_handler envFull ⟨none, none, none⟩ 3 sampleDb mongoEmpty
                  (some (0, "permission denied")) none).finalMongo none)) :=
  ⟨⟨rfl, rfl, rfl, rfl⟩,
   index_build_error_warning_in_handler envFull ⟨none, none, none⟩ 3 sampleDb mongoEmpty
     0 "permission denied" rfl rfl rfl rfl⟩

/-- C8 (counterexample). The standalone script never checks the
configuration: with `MYSQL_HOST` unset it still issues the MySQL
connection attempt (I/O) and the resulting connector error escapes with
no missing-configuration classification, so the claim fails on
standalone runs. -/
theorem standalone_missing_config_attempts_connection :
    missingVars envMissingHost = ["MYSQL_HOST"]
    ∧ (pyMain envMissingHost 0 sampleDb mongoEmpty
        (some "InterfaceError: connection refused") none none none).io
        = ["mysql.connector.connect host=None"]
    ∧ (pyMain envMissingHost 0 sampleDb mongoEmpty
        (some "InterfaceError: connection refused") none none none).raised
        = some "InterfaceError: connection refused"
    ∧ (pyMain envMissingHost 0 sampleDb mongoEmpty
        (some "InterfaceError: connection refused") none none none).errorPrinted = none :=
  ⟨rfl, rfl, rfl, rfl⟩

/-- C8 (amended). The serverless handler validates the required
connection parameters first: with any of them missing it returns a 500
response classified as `ValueError` before any store I/O is performed
and with the destination untouched. -/
theorem missing_config_fails_fast_in_handler
    (env : Env) (event : LambdaEvent) (now : Nat) (db : MySQLDb) (mongo0 : MongoState)
    (ifault : Option (Nat × String)) (vfault : Option String)
    (h : missingVars env ≠ []) :
    (lambda_handler env event now db mongo0 ifault vfault).response.statusCode = 500
    ∧ (lambda_handler env event now db mongo0 ifault vfault).response.error_type
        = some "ValueError"
    ∧ (lambda_handler env event now db mongo0 ifault vfault).io = []
    ∧ (lambda_handler env event now db mongo0 ifault vfault).finalMongo = mongo0 := by
  have hb : (missingVars env).isEmpty = false := by
    cases hq : (missingVars env).isEmpty
    · rfl
    · exact absurd (List.isEmpty_iff.mp hq) h
  simp only [lambda_handler, hb, Bool.not_false, if_true]
  refine ⟨?_, ?_, ?_, ?_⟩ <;> trivial

/-- Witness for the handler fail-fast theorem with `MYSQL_HOST` unset. -/
theorem missing_config_fails_fast_in_handler_witness :
    missingVars envMissingHost ≠ []
    ∧ ((lambda_handler envMissingHost ⟨none, none, none⟩ 0 sampleDb mongoEmpty
          none none).response.statusCode = 500
        ∧ (lambda_handler envMissingHost ⟨none, none, none⟩ 0 sampleDb mongoEmpty
            none none).response.error_type = some "ValueError"
        ∧ (lambda_handler envMissingHost ⟨none, none, none⟩ 0 sampleDb mongoEmpty
            none none).io = []
        ∧ (lambda_handler envMissingHost ⟨none, none, none⟩ 0 sampleDb mongoEmpty
            none none).finalMongo = mongoEmpty) :=
  ⟨by decide,
   missing_config_fails_fast_in_handler envMissingHost ⟨none, none, none⟩ 0 sampleDb
     mongoEmpty none none (by decide)⟩

/-- C9. In the standalone script the connections are opened *before*
the `try/finally` block: when the MongoDB connection attempt raises, the
already-open MySQL connection is left unreleased while the error
propagates — contradicting `main`'s own docstring ("finally 블록으로 연결
리소스 확실히 정리") and the spec's every-exit-path cleanup requirement.
Moreover even a fully successful run never closes the Mongo client. -/
theorem standalone_mongo_connect_failure_leaks_mysql_connection :
    (pyMain envFull 0 sampleDb mongoEmpty none
        (some "ServerSelectionTimeoutError") none none).mysqlOpened = true
    ∧ (pyMain envFull 0 sampleDb mongoEmpty none
        (some "ServerSelectionTimeoutError") none none).mysqlClosed = false
    ∧ (pyMain envFull 0 sampleDb mongoEmpty none
        (some "ServerSelectionTimeoutError") none none).raised
        = some "ServerSelectionTimeoutError"
    ∧ (pyMain envFull 0 sampleDb mongoEmpty none none none none).mongoClientClosed = false :=
  ⟨rfl, rfl, rfl, rfl⟩

/-! ### Dispatch-loop lemmas -/

/-- The four collection names recognised by the dispatch chain. -/
def knownCollections : List String := ["Products", "Customers", "Orders", "Reviews"]

/-- Reading back a freshly written key. -/
theorem dictGet_dictSet_self {α : Type} (k : String) (v : α) :
    ∀ d : List (String × α), dictGet (dictSet d k v) k = some v := by
  intro d
  induction d with
  | nil => simp [dictGet, dictSet]
  | cons p d ih =>
    by_cases hp : (p.1 == k) = true
    · simp [dictSet, dictGet, hp]
    · simp only [Bool.not_eq_true] at hp
      simp [dictSet, dictGet, hp, ih]

/-- Writing one key leaves reads of another key unchanged. -/
theorem dictGet_dictSet_ne {α : Type} (k k2 : String) (v : α) (h : (k2 == k) = false) :
    ∀ d : List (String × α), dictGet (dictSet d k v) k2 = dictGet d k2 := by
  have h0 : ¬ k = k2 := by
    rw [beq_eq_false_iff_ne] at h
    exact fun hh => h hh.symm
  intro d
  induction d with
  | nil => simp [dictGet, dictSet, h0]
  | cons p d ih =>
    by_cases hp : (p.1 == k) = true
    · have hp1 : p.1 = k := by simpa using hp
      have h' : (k == k2) = false := by
        rw [beq_eq_false_iff_ne] at h ⊢
        exact fun hh => h hh.symm
      simp [dictSet, dictGet, hp, hp1, h']
    · simp only [Bool.not_eq_true] at hp
      simp [dictSet, dictGet, hp, ih]

/-- Destination state after the dispatch arm for a recognised name. -/
def migratedState (now : Nat) (db : MySQLDb) (c : String) (m : MongoState) : MongoState :=
  if c = "Products" then { m with Products := db.products.map assembleProduct }
  else if c = "Customers" then { m with Customers := db.customers.map (assembleCustomer now db) }
  else if c = "Orders" then { m with Orders := db.orders.map (assembleOrder db) }
  else if c = "Reviews" then { m with Reviews := (fetchReviewRows db).map (assembleReview now) }
  else m

/-- The `migration_results` entry the dispatch arm stores for a
recognised name. -/
def entryFor (now : Nat) (db : MySQLDb) (c : String) : MigrationEntry :=
  if c = "Products" then
    mkMigrationEntry "Products" db.products.length (db.products.map assembleProduct).length
  else if c = "Customers" then
    mkMigrationEntry "Customers" db.customers.length
      (db.customers.map (assembleCustomer now db)).length
  else if c = "Orders" then
    mkMigrationEntry "Orders" db.orders.length (db.orders.map (assembleOrder db)).length
  else
    mkMigrationEntry "Reviews" (fetchReviewRows db).length
      ((fetchReviewRows db).map (assembleReview now)).length

/-- One iteration of the loop on a recognised name: migrate, store the
entry, then record the duration and continue. -/
theorem dispatchLoop_cons_known (now : Nat) (db : MySQLDb) (c : String) (l : List String)
    (mongo : MongoState) (results : List (String × MigrationEntry))
    (hc : c ∈ knownCollections) :
    dispatchLoop now db (c :: l) mongo results
      = dispatchLoop now db l (migratedState now db c mongo)
          (dictSet (dictSet results c (entryFor now db c)) c
            { entryFor now db c with duration_recorded := true }) := by
  simp only [knownCollections, List.mem_cons, List.not_mem_nil, or_false] at hc
  rcases hc with rfl | rfl | rfl | rfl
  · have hstep : dispatchStep now db "Products" mongo results
        = .ok ({ mongo with Products := db.products.map assembleProduct },
               dictSet results "Products" (entryFor now db "Products")) := by
      simp [dispatchStep, migrateProducts_eq, entryFor, Except.map, mkMigrationEntry]
    simp [dispatchLoop, hstep, dictGet_dictSet_self, migratedState]
  · have hstep : dispatchStep now db "Customers" mongo results
        = .ok ({ mongo with Customers := db.customers.map (assembleCustomer now db) },
               dictSet results "Customers" (entryFor now db "Customers")) := by
      simp [dispatchStep, migrateCustomers_eq, entryFor, Except.map, mkMigrationEntry]
    simp [dispatchLoop, hstep, dictGet_dictSet_self, migratedState]
  · have hstep : dispatchStep now db "Orders" mongo results
        = .ok ({ mongo with Orders := db.orders.map (assembleOrder db) },
               dictSet results "Orders" (entryFor now db "Orders")) := by
      simp [dispatchStep, migrateOrders_eq, entryFor, Except.map, mkMigrationEntry]
    simp [dispatchLoop, hstep, dictGet_dictSet_self, migratedState]
  · have hstep : dispatchStep now db "Reviews" mongo results
        = .ok ({ mongo with Reviews := (fetchReviewRows db).map (assembleReview now) },
               dictSet results "Reviews" (entryFor now db "Reviews")) := by
      simp [dispatchStep, migrateReviews_eq, entryFor, Except.map, mkMigrationEntry]
    simp [dispatchLoop, hstep, dictGet_dictSet_self, migratedState]

/-- Over a list of recognised names the loop never raises, and each
listed collection holds exactly its freshly assembled documents while
unlisted collections are untouched. -/
theorem dispatchLoop_known_effects (now : Nat) (db : MySQLDb) :
    ∀ (l : List String), (∀ c ∈ l, c ∈ knownCollections) →
      ∀ (mongo : MongoState) (results : List (String × MigrationEntry)),
      (dispatchLoop now db l mongo results).2.2 = none
      ∧ (dispatchLoop now db l mongo results).1.Products
          = (if "Products" ∈ l then db.products.map assembleProduct else mongo.Products)
      ∧ (dispatchLoop now db l mongo results).1.Customers
          = (if "Customers" ∈ l then db.customers.map (assembleCustomer now db)
             else mongo.Customers)
      ∧ (dispatchLoop now db l mongo results).1.Orders
          = (if "Orders" ∈ l then db.orders.map (assembleOrder db) else mongo.Orders)
      ∧ (dispatchLoop now db l mongo results).1.Reviews
          = (if "Reviews" ∈ l then (fetchReviewRows db).map (assembleReview now)
             else mongo.Reviews) := by
  intro l
  induction l with
  | nil =>
    intro _ mongo results
    refine ⟨rfl, ?_, ?_, ?_, ?_⟩ <;> simp [dispatchLoop]
  | cons c l ih =>
    intro hall mongo results
    have hc := hall c (List.mem_cons_self c l)
    have IH := ih (fun x hx => hall x (List.mem_cons_of_mem c hx))
      (migratedState now db c mongo)
      (dictSet (dictSet results c (entryFor now db c)) c
        { entryFor now db c with duration_recorded := true })
    rw [dispatchLoop_cons_known now db c l mongo results hc]
    simp only [knownCollections, List.mem_cons, List.not_mem_nil, or_false] at hc
    rcases hc with rfl | rfl | rfl | rfl <;>
      exact ⟨IH.1,
        by rw [IH.2.1]; simp [migratedState, List.mem_cons, ite_self],
        by rw [IH.2.2.1]; simp [migratedState, List.mem_cons, ite_self],
        by rw [IH.2.2.2.1]; simp [migratedState, List.mem_cons, ite_self],
        by rw [IH.2.2.2.2]; simp [migratedState, List.mem_cons, ite_self]⟩

/-- The loop never creates a `migration_results` entry for a name outside
the four recognised ones. -/
theorem dispatchLoop_foreign_key (now : Nat) (db : MySQLDb) (k : String)
    (hk : k ∉ knownCollections) :
    ∀ (l : List String), (∀ c ∈ l, c ∈ knownCollections) →
      ∀ (mongo : MongoState) (results : List (String × MigrationEntry)),
      dictGet (dispatchLoop now db l mongo results).2.1 k = dictGet results k := by
  intro l
  induction l with
  | nil => intro _ mongo results; rfl
  | cons c l ih =>
    intro hall mongo results
    have hc := hall c (List.mem_cons_self c l)
    rw [dispatchLoop_cons_known now db c l mongo results hc]
    rw [ih (fun x hx => hall x (List.mem_cons_of_mem c hx))]
    have hkc : (k == c) = false := by
      rw [beq_eq_false_iff_ne]
      rintro rfl
      exact hk hc
    rw [dictGet_dictSet_ne c k _ hkc, dictGet_dictSet_ne c k _ hkc]

/-- Splitting the loop over a concatenation, when the first part runs to
completion. -/
theorem dispatchLoop_append (now : Nat) (db : MySQLDb) :
    ∀ (l1 l2 : List String) (mongo : MongoState)
      (results : List (String × MigrationEntry)),
      (dispatchLoop now db l1 mongo results).2.2 = none →
      dispatchLoop now db (l1 ++ l2) mongo results
        = dispatchLoop now db l2 (dispatchLoop now db l1 mongo results).1
            (dispatchLoop now db l1 mongo results).2.1 := by
  intro l1
  induction l1 with
  | nil => intro l2 mongo results _; rfl
  | cons c l1 ih =>
    intro l2 mongo results h
    rw [List.cons_append]
    simp only [dispatchLoop] at h ⊢
    cases hs : dispatchStep now db c mongo results with
    | error e => simp [hs] at h
    | ok pr =>
      obtain ⟨m, r⟩ := pr
      simp only [hs] at h ⊢
      cases hg : dictGet r c with
      | none => simp [hg] at h
      | some entry =>
        simp only [hg] at h ⊢
        exact ih l2 m (dictSet r c { entry with duration_recorded := true }) h

/-- C10. A `collections` entry other than the four recognised names
matches no dispatch arm (so nothing is migrated for it), but the loop
then unconditionally writes `migration_results[name]['duration_seconds']`,
raising a `KeyError`; the handler therefore returns a statusCode-500
response (instead of skipping the name), with no validation result,
while every recognised name earlier in the list has already been dropped
and reloaded in the destination. -/
theorem unknown_collection_name_yields_keyerror_500
    (env : Env) (now : Nat) (db : MySQLDb) (mongo0 : MongoState)
    (ifault : Option (Nat × String)) (vfault : Option String)
    (pre rest : List String) (nm : String)
    (henv : missingVars env = [])
    (hpre : ∀ c ∈ pre, c ∈ knownCollections)
    (hnm : nm ∉ knownCollections) :
    (lambda_handler env ⟨some (pre ++ nm :: rest), none, none⟩ now db mongo0
        ifault vfault).response.statusCode = 500
    ∧ (lambda_handler env ⟨some (pre ++ nm :: rest), none, none⟩ now db mongo0
        ifault vfault).response.error_type = some "KeyError"
    ∧ (lambda_handler env ⟨some (pre ++ nm :: rest), none, none⟩ now db mongo0
        ifault vfault).response.error = some nm
    ∧ (lambda_handler env ⟨some (pre ++ nm :: rest), none, none⟩ now db mongo0
        ifault vfault).validation = none
    ∧ (lambda_handler env ⟨some (pre ++ nm :: rest), none, none⟩ now db mongo0
        ifault vfault).finalMongo = (dispatchLoop now db pre mongo0 []).1
    ∧ ("Products" ∈ pre →
        (lambda_handler env ⟨some (pre ++ nm :: rest), none, none⟩ now db mongo0
          ifault vfault).finalMongo.Products = db.products.map assembleProduct)
    ∧ ("Customers" ∈ pre →
        (lambda_handler env ⟨some (pre ++ nm :: rest), none, none⟩ now db mongo0
          ifault vfault).finalMongo.Customers = db.customers.map (assembleCustomer now db))
    ∧ ("Orders" ∈ pre →
        (lambda_handler env ⟨some (pre ++ nm :: rest), none, none⟩ now db mongo0
          ifault vfault).finalMongo.Orders = db.orders.map (assembleOrder db))
    ∧ ("Reviews" ∈ pre →
        (lambda_handler env ⟨some (pre ++ nm :: rest), none, none⟩ now db mongo0
          ifault vfault).finalMongo.Reviews = (fetchReviewRows db).map (assembleReview now)) := by
  have heff := dispatchLoop_known_effects now db pre hpre mongo0 []
  have happ := dispatchLoop_append now db pre (nm :: rest) mongo0 [] heff.1
  have h1 : (nm == "Products") = false := by
    rw [beq_eq_false_iff_ne]
    rintro rfl
    exact hnm (by simp [knownCollections])
  have h2 : (nm == "Customers") = false := by
    rw [beq_eq_false_iff_ne]
    rintro rfl
    exact hnm (by simp [knownCollections])
  have h3 : (nm == "Orders") = false := by
    rw [beq_eq_false_iff_ne]
    rintro rfl
    exact hnm (by simp [knownCollections])
  have h4 : (nm == "Reviews") = false := by
    rw [beq_eq_false_iff_ne]
    rintro rfl
    exact hnm (by simp [knownCollections])
  have hstep : dispatchStep now db nm (dispatchLoop now db pre mongo0 []).1
      (dispatchLoop now db pre mongo0 []).2.1
      = .ok ((dispatchLoop now db pre mongo0 []).1, (dispatchLoop now db pre mongo0 []).2.1) := by
    simp [dispatchStep, h1, h2, h3, h4]
  have hget : dictGet (dispatchLoop now db pre mongo0 []).2.1 nm = none := by
    rw [dispatchLoop_foreign_key now db nm hnm pre hpre mongo0 []]
    rfl
  have hloop : dispatchLoop now db (pre ++ nm :: rest) mongo0 []
      = ((dispatchLoop now db pre mongo0 []).1,
         (dispatchLoop now db pre mongo0 []).2.1,
         some (PyErr.mk "KeyError" nm)) := by
    rw [happ]
    simp only [dispatchLoop, hstep, hget]
  have hb : (missingVars env).isEmpty = true := by rw [henv]; rfl
  have hcoll : (show LambdaEvent from ⟨some (pre ++ nm :: rest), none, none⟩).collections.getD
      ["Products", "Customers", "Orders", "Reviews"] = pre ++ nm :: rest := rfl
  have hout : lambda_handler env ⟨some (pre ++ nm :: rest), none, none⟩ now db mongo0
      ifault vfault
      = { response := { statusCode := 500, success := false, error := some nm, error_type := some "KeyError" }
          results := (dispatchLoop now db pre mongo0 []).2.1
          indexes_created := false
          warnings := []
          validation := none
          finalMongo := (dispatchLoop now db pre mongo0 []).1
          io := ["mysql.connector.connect", "MongoClient"]
          connectionsClosed := true } := by
    simp only [lambda_handler, hb, Bool.not_true, Bool.false_eq_true, if_false, hcoll, hloop]
  rw [hout]
  refine ⟨rfl, rfl, rfl, rfl, rfl, ?_, ?_, ?_, ?_⟩
  · intro hp
    show (dispatchLoop now db pre mongo0 []).1.Products = _
    rw [heff.2.1, if_pos hp]
  · intro hp
    show (dispatchLoop now db pre mongo0 []).1.Customers = _
    rw [heff.2.2.1, if_pos hp]
  · intro hp
    show (dispatchLoop now db pre mongo0 []).1.Orders = _
    rw [heff.2.2.2.1, if_pos hp]
  · intro hp
    show (dispatchLoop now db pre mongo0 []).1.Reviews = _
    rw [heff.2.2.2.2, if_pos hp]

/-- Witness for the unknown-collection theorem: event collections
`["Products", "Bogus", "Customers"]` on the sample database — `Products`
is reloaded, then `Bogus` raises the `KeyError` and the handler answers
500 without ever migrating `Customers`. -/
theorem unknown_collection_name_yields_keyerror_500_witness :
    (missingVars envFull = []
      ∧ (∀ c ∈ ["Products"], c ∈ knownCollections)
      ∧ "Bogus" ∉ knownCollections)
    ∧ ((lambda_handler envFull ⟨some (["Products"] ++ "Bogus" :: ["Customers"]), none, none⟩
          3 sampleDb mongoEmpty none none).response.statusCode = 500
        ∧ (lambda_handler envFull ⟨some (["Products"] ++ "Bogus" :: ["Customers"]), none, none⟩
            3 sampleDb mongoEmpty none none).response.error_type = some "KeyError"
        ∧ (lambda_handler envFull ⟨some (["Products"] ++ "Bogus" :: ["Customers"]), none, none⟩
            3 sampleDb mongoEmpty none none).response.error = some "Bogus"
        ∧ (lambda_handler envFull ⟨some (["Products"] ++ "Bogus" :: ["Customers"]), none, none⟩
            3 sampleDb mongoEmpty none none).validation = none
        ∧ (lambda_handler envFull ⟨some (["Products"] ++ "Bogus" :: ["Customers"]), none, none⟩
            3 sampleDb mongoEmpty none none).finalMongo
            = (dispatchLoop 3 sampleDb ["Products"] mongoEmpty []).1
        ∧ ("Products" ∈ ["Products"] →
            (lambda_handler envFull ⟨some (["Products"] ++ "Bogus" :: ["Customers"]), none, none⟩
              3 sampleDb mongoEmpty none none).finalMongo.Products
              = sampleDb.products.map assembleProduct)
        ∧ ("Customers" ∈ ["Products"] →
            (lambda_handler envFull ⟨some (["Products"] ++ "Bogus" :: ["Customers"]), none, none⟩
              3 sampleDb mongoEmpty none none).finalMongo.Customers
              = sampleDb.customers.map (assembleCustomer 3 sampleDb))
        ∧ ("Orders" ∈ ["Products"] →
            (lambda_handler envFull ⟨some (["Products"] ++ "Bogus" :: ["Customers"]), none, none⟩
              3 sampleDb mongoEmpty none none).finalMongo.Orders
              = sampleDb.orders.map (assembleOrder sampleDb))
        ∧ ("Reviews" ∈ ["Products"] →
            (lambda_handler envFull ⟨some (["Products"] ++ "Bogus" :: ["Customers"]), none, none⟩
              3 sampleDb mongoEmpty none none).finalMongo.Reviews
              = (fetchReviewRows sampleDb).map (assembleReview 3))) :=
  ⟨⟨rfl, by decide, by decide⟩,
   unknown_collection_name_yields_keyerror_500 envFull 3 sampleDb mongoEmpty none none
     ["Products"] ["Customers"] "Bogus" rfl (by decide) (by decide)⟩
